import Mathlib

/-!
Verification of the Hyperledger Fabric gateway client in this repository.

The Go sources are shallowly embedded:

* pure data (configs, results, requests, responses) becomes Lean structures;
* external effects (file system reads, gRPC dialing, the fabric-gateway SDK
  calls) become fields of an explicit `Env` record of oracles, so that every
  control-flow path of the Go functions is a case of the Lean definitions;
* `fmt.Errorf("...: %w", err)` wrapping becomes the `GoError.wrap` constructor,
  `errors.New` / external error values become `GoError.goErr`, and the
  deadline-exceeded error the SDK produces on a commit-status timeout becomes
  `GoError.timeout`;
* resource and observable actions (file reads, connection open/close, peer
  selection, submit attempts) are emitted as an event trace, mirroring the Go
  statements including the `defer` statements, so that resource-lifecycle and
  no-retry properties are statements about the trace;
* the pseudo-random generator `fc.rand` is modelled by passing the stream of
  raw draws explicitly; `math/rand`'s `Intn` rejection-sampling algorithm
  (`Int31n`/`Int63n`) is embedded as `goIntnStep`/`goIntn`, parametrised by
  the word width.
-/

namespace PluginHlfApi

/-- Byte strings (Go `[]byte`) are modelled as lists of byte values. -/
abbrev Bytes := List Nat

/-- Embeds `PeerConfig` from `pkg/fabric/client.go`: one peer endpoint and the
path of its TLS certificate. -/
structure PeerConfig where
  endpoint : String
  tlsCertPath : String
deriving DecidableEq

/-- Embeds `ClientConfig` from `pkg/fabric/client.go`. -/
structure ClientConfig where
  mspID : String
  certPath : String
  keyPath : String
  peers : List PeerConfig
  channelName : String
  chaincodeName : String
deriving DecidableEq

/-- Embeds `TransactionResult` from `pkg/fabric/client.go`. -/
structure TransactionResult where
  result : Bytes
  txID : String
  success : Bool
  blockNumber : Nat
  resultCode : Nat
deriving DecidableEq

/-- Embeds `FabricClient` from `pkg/fabric/client.go`.  The Go struct holds
only the configuration and the random generator; the generator is modelled
externally as the stream of raw draws passed to the selection function, so the
Lean record keeps just the configuration.  In particular the client caches no
identity, connection or session between calls. -/
structure FabricClient where
  config : ClientConfig
deriving DecidableEq

/-- Go error values.  `goErr` is `errors.New` or an opaque error produced by
an external library call; `wrap` is `fmt.Errorf("<context>: %w", cause)`,
keeping the context prefix and the wrapped cause exactly as Go does; `timeout`
is the deadline-exceeded error the fabric-gateway SDK surfaces when a phase
times out. -/
inductive GoError where
  | goErr (msg : String)
  | timeout (msg : String)
  | wrap (context : String) (cause : GoError)
deriving DecidableEq

/-- Renders a `GoError` the way Go's `err.Error()` renders the wrap chain. -/
def GoError.render : GoError → String
  | .goErr msg => msg
  | .timeout msg => msg
  | .wrap context cause => context ++ ": " ++ cause.render

/-- Embeds `NewFabricClient` from `pkg/fabric/client.go`: rejects an empty
peer list, otherwise returns the client holding the configuration (the Go
code additionally seeds the random generator, which is modelled externally).
-/
def NewFabricClient (config : ClientConfig) : Except GoError FabricClient :=
  if config.peers.length = 0 then
    .error (.goErr "at least one peer must be configured")
  else
    .ok { config := config }

/-- Nanoseconds in one second (`time.Second` in Go). -/
def timeSecond : Nat := 1000000000

/-- The four per-phase timeouts handed to `client.Connect`. -/
structure GatewayOptions where
  evaluateTimeout : Nat
  endorseTimeout : Nat
  submitTimeout : Nat
  commitStatusTimeout : Nat
deriving DecidableEq

/-- The options literally passed at `client.go:139-142`:
`WithEvaluateTimeout(30*time.Second)`, `WithEndorseTimeout(30*time.Second)`,
`WithSubmitTimeout(30*time.Second)`, `WithCommitStatusTimeout(30*time.Second)`.
-/
def gatewayDefaultOptions : GatewayOptions :=
  { evaluateTimeout := 30 * timeSecond
    endorseTimeout := 30 * timeSecond
    submitTimeout := 30 * timeSecond
    commitStatusTimeout := 30 * timeSecond }

/-- Parsed X.509 certificate handle (`*x509.Certificate`), abstract. -/
structure X509Cert where
  raw : Bytes
deriving DecidableEq

/-- Parsed private key handle, abstract. -/
structure PrivateKey where
  raw : Bytes
deriving DecidableEq

/-- Signing function handle built by `identity.NewPrivateKeySign`. -/
structure Signer where
  key : PrivateKey
deriving DecidableEq

/-- Client identity built by `identity.NewX509Identity(mspID, cert)`. -/
structure X509Identity where
  mspID : String
  cert : X509Cert
deriving DecidableEq

/-- An open gRPC client connection (`*grpc.ClientConn`) to one peer. -/
structure Conn where
  peer : PeerConfig
deriving DecidableEq

/-- The gateway returned by `client.Connect`, carrying exactly what the call
site passes: the identity, the signer, the client connection and the four
phase timeouts. -/
structure Gateway where
  identity : X509Identity
  signer : Signer
  conn : Conn
  options : GatewayOptions
deriving DecidableEq

/-- Result of `gw.GetNetwork(channelName)`. -/
structure Network where
  gateway : Gateway
  channelName : String
deriving DecidableEq

/-- Result of `network.GetContract(chaincodeName)`. -/
structure Contract where
  network : Network
  chaincodeName : String
deriving DecidableEq

/-- Embeds `gw.GetNetwork` as used at `client.go:163` and `client.go:201`. -/
def Gateway.GetNetwork (gw : Gateway) (channelName : String) : Network :=
  { gateway := gw, channelName := channelName }

/-- Embeds `network.GetContract` as used at `client.go:164` and
`client.go:202`. -/
def Network.GetContract (nw : Network) (chaincodeName : String) : Contract :=
  { network := nw, chaincodeName := chaincodeName }

/-- Commit status returned by `commit.Status()`: block number, validation
code (`status.Code.Number()`, a machine integer) and the success flag. -/
structure CommitStatus where
  blockNumber : Nat
  code : Nat
  successful : Bool
deriving DecidableEq

/-- Observable actions of one call, emitted in program order.  Connection
close events are emitted for every `Close()` the Go code runs, explicit or
deferred, so double closes are visible in the trace. -/
inductive Event where
  | peerSelected (idx : Nat)
  | fileRead (path : String)
  | connOpened (endpoint : String)
  | connClosed (endpoint : String)
  | gatewayOpened
  | gatewayClosed
  | submitCalled (channel chaincode fcn : String)
  | evaluateCalled (channel chaincode fcn : String)
  | commitStatusCalled (txID : String)
deriving DecidableEq

/-- Oracles for every external effect the client performs.  Each field is an
arbitrary function, so universally quantifying over `Env` covers every
combination of success and failure of the external world. -/
structure Env where
  readFile : String → Except GoError Bytes
  pemDecode : Bytes → Option Bytes
  parseCertificate : Bytes → Except GoError X509Cert
  newX509Identity : String → X509Cert → Except GoError Unit
  privateKeyFromPEM : Bytes → Except GoError PrivateKey
  newPrivateKeySign : PrivateKey → Except GoError Unit
  dial : String → Except GoError Unit
  connect : X509Identity → Signer → Conn → GatewayOptions → Except GoError Unit
  submitAsync : Contract → String → List String → Except GoError (Bytes × String)
  commitStatus : String → Except GoError CommitStatus
  evaluate : Contract → String → List String → Except GoError Bytes

/-- Embeds `ParseX509Certificate` from `pkg/fabric/client.go:50-63`: empty
input check, `pem.Decode`, then `x509.ParseCertificate`. -/
def ParseX509Certificate (env : Env) (contents : Bytes) : Except GoError X509Cert :=
  if contents.length = 0 then
    .error (.goErr "certificate pem is empty")
  else
    match env.pemDecode contents with
    | none => .error (.goErr "failed to decode PEM block")
    | some block =>
      match env.parseCertificate block with
      | .error e => .error e
      | .ok crt => .ok crt

/-- Embeds `selectRandomPeer` from `pkg/fabric/client.go:82-103`.  The index
chosen by `fc.rand.Intn(len(fc.config.Peers))` is the `idx` argument (its
distribution is analysed separately via `goIntn`); the function then reads
that peer's TLS certificate file and dials the endpoint.  The returned trace
records the selection, the file read, and the connection open when the dial
succeeds. -/
def selectRandomPeer (fc : FabricClient) (env : Env)
    (idx : Fin fc.config.peers.length) :
    Except GoError Conn × List Event :=
  match env.readFile fc.config.peers[idx].tlsCertPath with
  | .error e =>
      (.error (.wrap ("failed to read TLS cert file for peer " ++
          fc.config.peers[idx].endpoint) e),
       [.peerSelected idx.val, .fileRead fc.config.peers[idx].tlsCertPath])
  | .ok _ =>
      match env.dial fc.config.peers[idx].endpoint with
      | .error e =>
          (.error (.wrap ("failed to create gRPC connection to peer " ++
              fc.config.peers[idx].endpoint) e),
           [.peerSelected idx.val, .fileRead fc.config.peers[idx].tlsCertPath])
      | .ok _ =>
          (.ok { peer := fc.config.peers[idx] },
           [.peerSelected idx.val, .fileRead fc.config.peers[idx].tlsCertPath,
            .connOpened fc.config.peers[idx].endpoint])

/-- Embeds `createGatewayConnection` from `pkg/fabric/client.go:106-144`:
reads and parses the client certificate, builds the identity, reads and
parses the private key, builds the signer, and calls `client.Connect` with
the four 30-second phase timeouts.  Errors are wrapped with the exact
context prefixes of the Go code; the `client.Connect` error is returned
unwrapped, as in the source. -/
def createGatewayConnection (fc : FabricClient) (env : Env) (conn : Conn) :
    Except GoError Gateway × List Event :=
  match env.readFile fc.config.certPath with
  | .error e =>
      (.error (.wrap "failed to read certificate file" e),
       [.fileRead fc.config.certPath])
  | .ok certPem =>
    match ParseX509Certificate env certPem with
    | .error e =>
        (.error (.wrap "failed to parse certificate for the peer" e),
         [.fileRead fc.config.certPath])
    | .ok cert =>
      match env.newX509Identity fc.config.mspID cert with
      | .error e =>
          (.error (.wrap "failed to create identity" e),
           [.fileRead fc.config.certPath])
      | .ok _ =>
        match env.readFile fc.config.keyPath with
        | .error e =>
            (.error (.wrap "failed to read private key file" e),
             [.fileRead fc.config.certPath, .fileRead fc.config.keyPath])
        | .ok keyPem =>
          match env.privateKeyFromPEM keyPem with
          | .error e =>
              (.error (.wrap "failed to create private key" e),
               [.fileRead fc.config.certPath, .fileRead fc.config.keyPath])
          | .ok pk =>
            match env.newPrivateKeySign pk with
            | .error e =>
                (.error (.wrap "failed to create signer" e),
                 [.fileRead fc.config.certPath, .fileRead fc.config.keyPath])
            | .ok _ =>
              match env.connect { mspID := fc.config.mspID, cert := cert }
                  { key := pk } conn gatewayDefaultOptions with
              | .error e =>
                  (.error e,
                   [.fileRead fc.config.certPath, .fileRead fc.config.keyPath])
              | .ok _ =>
                  (.ok { identity := { mspID := fc.config.mspID, cert := cert },
                         signer := { key := pk }, conn := conn,
                         options := gatewayDefaultOptions },
                   [.fileRead fc.config.certPath, .fileRead fc.config.keyPath,
                    .gatewayOpened])

/-- Embeds `InvokeTransaction` from `pkg/fabric/client.go:147-183`.  The
event trace follows the Go statements: on a gateway-construction failure the
code runs the explicit `selectedPeer.Close()` and then the deferred
`selectedPeer.Close()` (two close events); on later paths the deferred
`gw.Close()` runs before the deferred `selectedPeer.Close()` (LIFO). -/
def InvokeTransaction (fc : FabricClient) (env : Env)
    (idx : Fin fc.config.peers.length) (fcn : String) (args : List String) :
    Except GoError TransactionResult × List Event :=
  match selectRandomPeer fc env idx with
  | (.error e, tr0) =>
      (.error (.wrap "failed to select peer" e), tr0)
  | (.ok conn, tr0) =>
    match createGatewayConnection fc env conn with
    | (.error e, tr1) =>
        (.error (.wrap "failed to create gateway connection" e),
         tr0 ++ tr1 ++ [.connClosed conn.peer.endpoint, .connClosed conn.peer.endpoint])
    | (.ok gw, tr1) =>
      match env.submitAsync
          ((gw.GetNetwork fc.config.channelName).GetContract fc.config.chaincodeName)
          fcn args with
      | .error e =>
          (.error (.wrap "failed to submit transaction" e),
           tr0 ++ tr1 ++
             [.submitCalled fc.config.channelName fc.config.chaincodeName fcn,
              .gatewayClosed, .connClosed conn.peer.endpoint])
      | .ok (result, txID) =>
        match env.commitStatus txID with
        | .error e =>
            (.error (.wrap "failed to get commit status" e),
             tr0 ++ tr1 ++
               [.submitCalled fc.config.channelName fc.config.chaincodeName fcn,
                .commitStatusCalled txID,
                .gatewayClosed, .connClosed conn.peer.endpoint])
        | .ok status =>
            (.ok { result := result, txID := txID,
                   success := status.successful,
                   blockNumber := status.blockNumber,
                   resultCode := status.code % 4294967296 },
             tr0 ++ tr1 ++
               [.submitCalled fc.config.channelName fc.config.chaincodeName fcn,
                .commitStatusCalled txID,
                .gatewayClosed, .connClosed conn.peer.endpoint])

/-- Embeds `EvaluateTransaction` from `pkg/fabric/client.go:186-212`: same
selection and gateway construction, then `contract.Evaluate`, returning only
the payload bytes. -/
def EvaluateTransaction (fc : FabricClient) (env : Env)
    (idx : Fin fc.config.peers.length) (fcn : String) (args : List String) :
    Except GoError Bytes × List Event :=
  match selectRandomPeer fc env idx with
  | (.error e, tr0) =>
      (.error (.wrap "failed to select peer" e), tr0)
  | (.ok conn, tr0) =>
    match createGatewayConnection fc env conn with
    | (.error e, tr1) =>
        (.error (.wrap "failed to create gateway connection" e),
         tr0 ++ tr1 ++ [.connClosed conn.peer.endpoint, .connClosed conn.peer.endpoint])
    | (.ok gw, tr1) =>
      match env.evaluate
          ((gw.GetNetwork fc.config.channelName).GetContract fc.config.chaincodeName)
          fcn args with
      | .error e =>
          (.error (.wrap "failed to evaluate transaction" e),
           tr0 ++ tr1 ++
             [.evaluateCalled fc.config.channelName fc.config.chaincodeName fcn,
              .gatewayClosed, .connClosed conn.peer.endpoint])
      | .ok result =>
          (.ok result,
           tr0 ++ tr1 ++
             [.evaluateCalled fc.config.channelName fc.config.chaincodeName fcn,
              .gatewayClosed, .connClosed conn.peer.endpoint])

/-- Replays a trace over the list of currently open connection endpoints:
an open pushes the endpoint, a close removes one occurrence (closing an
already-closed gRPC connection does not change the open-connection count).
-/
def openConnsAfter : List Event → List String → List String
  | [], s => s
  | .connOpened e :: tr, s => openConnsAfter tr (e :: s)
  | .connClosed e :: tr, s => openConnsAfter tr (s.erase e)
  | _ :: tr, s => openConnsAfter tr s

/-- Number of peer selections recorded in a trace. -/
def countSelections (tr : List Event) : Nat :=
  (tr.filter fun e => match e with | .peerSelected _ => true | _ => false).length

/-- Number of submit attempts recorded in a trace. -/
def countSubmits (tr : List Event) : Nat :=
  (tr.filter fun e => match e with | .submitCalled _ _ _ => true | _ => false).length

/-- Number of evaluate attempts recorded in a trace. -/
def countEvaluates (tr : List Event) : Nat :=
  (tr.filter fun e => match e with | .evaluateCalled _ _ _ => true | _ => false).length

/-- Models one acceptance step of Go `math/rand`'s `Int31n`/`Int63n` (the
algorithm behind the `fc.rand.Intn(len(fc.config.Peers))` call at
`client.go:84`), parametrised by the word width `w` (31 or 63): raw draws `v`
range over `[0, 2^w)`.  When `n` is a power of two the draw is masked with
`n-1` and always accepted; otherwise draws above
`max = 2^w - 1 - 2^w % n` are rejected and the accepted draw is reduced
modulo `n`. -/
def goIntnStep (w n v : Nat) : Option Nat :=
  if n &&& (n - 1) = 0 then
    some (v &&& (n - 1))
  else if v ≤ 2 ^ w - 1 - 2 ^ w % n then
    some (v % n)
  else
    none

/-- Models the rejection loop of `Int31n`/`Int63n` over the stream of raw
generator draws: keep drawing until a draw is accepted (`none` when the
finite draw list is exhausted, modelling a run of the loop that has not yet
terminated). -/
def goIntn (w n : Nat) : List Nat → Option Nat
  | [] => none
  | v :: vs =>
    match goIntnStep w n v with
    | some r => some r
    | none => goIntn w n vs

/-- The peer index computed by `selectRandomPeer` at `client.go:84`:
`fc.rand.Intn(len(fc.config.Peers))`, given the call's raw draws. -/
def selectPeerIndex (fc : FabricClient) (w : Nat) (draws : List Nat) : Option Nat :=
  goIntn w fc.config.peers.length draws

/-- Number of raw draws in `[0, 2^w)` that a single acceptance step maps to
peer index `i`. -/
def intnDrawCount (w n i : Nat) : Nat :=
  ((Finset.range (2 ^ w)).filter (fun v => goIntnStep w n v = some i)).card

/-- Models Go `strings.Split(s, ",")` on the character list: splitting the
empty list yields one empty field, exactly as `strings.Split("", ",")`
returns `[""]`. -/
def splitCommaChars : List Char → List (List Char)
  | [] => [[]]
  | c :: cs =>
    if c = ',' then
      [] :: splitCommaChars cs
    else
      match splitCommaChars cs with
      | [] => [[c]]
      | l :: ls => (c :: l) :: ls

/-- Models `strings.Split(s, ",")` as used at `main.go:91-92`. -/
def goSplitComma (s : String) : List String :=
  (splitCommaChars s.data).map (fun cs => String.mk cs)

/-- Models `strings.TrimSpace` (whitespace trimming on both ends; the exact
whitespace class is irrelevant to the claims, which never inspect the
trimmed text). -/
def goTrimSpace (s : String) : String :=
  s.trim

/-- Outcome of server startup: `log.Fatalf` terminates the process before a
client exists, otherwise the server starts holding the constructed client. -/
inductive StartupResult where
  | fatal (msg : String)
  | started (client : FabricClient)
deriving DecidableEq

/-- The `ClientConfig` composite literal built by `runServer` at
`main.go:109-115`: it sets `MspID`, `CertPath`, `KeyPath`, `Peers` (the
trimmed, zipped endpoint/TLS-certificate pairs of `main.go:100-106`) and
`ChannelName`, and omits `ChaincodeName`, which therefore stays the Go zero
value, the empty string. -/
def runServerClientConfig
    (mspID certPath keyPath peerEndpoints tlsCertPaths channelName : String) :
    ClientConfig :=
  { mspID := mspID, certPath := certPath, keyPath := keyPath,
    peers := List.zipWith
      (fun p t => { endpoint := goTrimSpace p, tlsCertPath := goTrimSpace t })
      (goSplitComma peerEndpoints) (goSplitComma tlsCertPaths),
    channelName := channelName, chaincodeName := "" }

/-- Embeds the configuration prefix of `runServer` from `main.go:90-119`:
split the comma-separated endpoint and TLS-certificate lists, fail fatally
(`log.Fatalf`) on a count mismatch, build the peer configurations, and
construct the Fabric client (a construction failure is also fatal). -/
def runServerStart (mspID certPath keyPath peerEndpoints tlsCertPaths channelName : String) :
    StartupResult :=
  if (goSplitComma peerEndpoints).length ≠ (goSplitComma tlsCertPaths).length then
    .fatal "Number of peer endpoints must match number of TLS certificates"
  else
    match NewFabricClient
        (runServerClientConfig mspID certPath keyPath peerEndpoints tlsCertPaths
          channelName) with
    | .error e => .fatal ("Failed to create Fabric client: " ++ e.render)
    | .ok client => .started client

/-- Embeds `TransactionRequest` from `pkg/api/handlers.go:11-15`. -/
structure TransactionRequest where
  chaincodeName : String
  function : String
  args : List String
deriving DecidableEq

/-- Embeds `TransactionResponse` from `pkg/api/handlers.go:18-26`; fields the
handler leaves unset keep their Go zero values. -/
structure TransactionResponse where
  status : String
  result : String
  error : String
  txID : String
  blockNumber : Nat
  resultCode : Nat
  success : Bool
deriving DecidableEq

/-- Models Go `string(bytes)` used when the handlers place payload bytes into
the JSON response; the rendering itself is never inspected by a claim. -/
def goStringOfBytes (b : Bytes) : String :=
  toString b

/-- Embeds `sendErrorResponse` from `pkg/api/handlers.go:88-94`. -/
def sendErrorResponse (message : String) : TransactionResponse :=
  { status := "error", result := "", error := message, txID := "",
    blockNumber := 0, resultCode := 0, success := false }

/-- Embeds `InvokeHandler` from `pkg/api/handlers.go:38-60`.  The JSON body
decode is modelled by the `Option TransactionRequest` argument (`none` for a
malformed body).  The handler forwards `req.Function` and `req.Args` to
`InvokeTransaction`; `req.ChaincodeName` is never read. -/
def InvokeHandler (fc : FabricClient) (env : Env)
    (idx : Fin fc.config.peers.length) (body : Option TransactionRequest) :
    (Nat × TransactionResponse) × List Event :=
  match body with
  | none => ((400, sendErrorResponse "Invalid request body"), [])
  | some req =>
    match InvokeTransaction fc env idx req.function req.args with
    | (.error e, tr) => ((500, sendErrorResponse e.render), tr)
    | (.ok txResult, tr) =>
        ((200,
          { status := "success", result := goStringOfBytes txResult.result,
            error := "", txID := txResult.txID,
            blockNumber := txResult.blockNumber,
            resultCode := txResult.resultCode,
            success := txResult.success }), tr)

/-- Embeds `EvaluateHandler` from `pkg/api/handlers.go:62-80`: forwards
`req.Function` and `req.Args` to `EvaluateTransaction`; `req.ChaincodeName`
is never read, and the success response carries only the payload. -/
def EvaluateHandler (fc : FabricClient) (env : Env)
    (idx : Fin fc.config.peers.length) (body : Option TransactionRequest) :
    (Nat × TransactionResponse) × List Event :=
  match body with
  | none => ((400, sendErrorResponse "Invalid request body"), [])
  | some req =>
    match EvaluateTransaction fc env idx req.function req.args with
    | (.error e, tr) => ((500, sendErrorResponse e.render), tr)
    | (.ok result, tr) =>
        ((200,
          { status := "success", result := goStringOfBytes result,
            error := "", txID := "", blockNumber := 0, resultCode := 0,
            success := false }), tr)

/-- Concrete peer configurations used for evaluating the definitions. -/
def demoPeer1 : PeerConfig := { endpoint := "peer1:7051", tlsCertPath := "tls1.pem" }

/-- Second demo peer. -/
def demoPeer2 : PeerConfig := { endpoint := "peer2:7051", tlsCertPath := "tls2.pem" }

/-- Third demo peer. -/
def demoPeer3 : PeerConfig := { endpoint := "peer3:7051", tlsCertPath := "tls3.pem" }

/-- A concrete three-peer client configuration. -/
def demoConfig : ClientConfig :=
  { mspID := "Org1MSP", certPath := "cert.pem", keyPath := "key.pem",
    peers := [demoPeer1, demoPeer2, demoPeer3],
    channelName := "mychannel", chaincodeName := "basic" }

/-- The client built over `demoConfig`. -/
def demoClient : FabricClient := { config := demoConfig }

/-- An environment in which every external call succeeds. -/
def happyEnv : Env :=
  { readFile := fun _ => .ok [48]
    pemDecode := fun b => some b
    parseCertificate := fun b => .ok { raw := b }
    newX509Identity := fun _ _ => .ok ()
    privateKeyFromPEM := fun b => .ok { raw := b }
    newPrivateKeySign := fun _ => .ok ()
    dial := fun _ => .ok ()
    connect := fun _ _ _ _ => .ok ()
    submitAsync := fun _ _ _ => .ok ([42], "tx1")
    commitStatus := fun _ => .ok { blockNumber := 7, code := 0, successful := true }
    evaluate := fun _ _ _ => .ok [99] }

/-- An environment that endorses and submits but times out while waiting for
the commit status (the stalling test double of the specification). -/
def commitStallEnv : Env :=
  { happyEnv with
    commitStatus := fun _ => .error (.timeout "context deadline exceeded") }

/-- An environment in which the submission phase fails remotely. -/
def submitFailEnv : Env :=
  { happyEnv with
    submitAsync := fun _ _ _ => .error (.goErr "endorsement failed") }

/-- An environment in which dialing any peer fails. -/
def dialFailEnv : Env :=
  { happyEnv with
    dial := fun _ => .error (.goErr "connection refused") }

/-- Index of the first demo peer. -/
def demoIdx : Fin demoClient.config.peers.length := ⟨0, by decide⟩

/-- The connection `selectRandomPeer` opens for the first demo peer under
`happyEnv`. -/
def demoConn : Conn := { peer := demoPeer1 }

/-- The gateway `createGatewayConnection` builds under `happyEnv`. -/
def demoGateway : Gateway :=
  { identity := { mspID := "Org1MSP", cert := { raw := [48] } },
    signer := { key := { raw := [48] } },
    conn := demoConn, options := gatewayDefaultOptions }

/-- A demo HTTP request body. -/
def demoRequest : TransactionRequest :=
  { chaincodeName := "mycc", function := "createAsset", args := ["asset1", "value1"] }

/-- Number of connection-dial successes recorded in a trace. -/
def countDials (tr : List Event) : Nat :=
  (tr.filter fun e => match e with | .connOpened _ => true | _ => false).length

/-- Number of commit-status queries recorded in a trace. -/
def countCommitQueries (tr : List Event) : Nat :=
  (tr.filter fun e => match e with | .commitStatusCalled _ => true | _ => false).length

theorem openConnsAfter_append (a b : List Event) (s : List String) :
    openConnsAfter (a ++ b) s = openConnsAfter b (openConnsAfter a s) := by
  induction a generalizing s with
  | nil => rfl
  | cons e tl ih => cases e <;> simp [openConnsAfter, ih]

theorem selectRandomPeer_shape (fc : FabricClient) (env : Env)
    (idx : Fin fc.config.peers.length) :
    (∃ e, selectRandomPeer fc env idx =
        (.error e,
         [.peerSelected idx.val, .fileRead fc.config.peers[idx].tlsCertPath])) ∨
    selectRandomPeer fc env idx =
        (.ok { peer := fc.config.peers[idx] },
         [.peerSelected idx.val, .fileRead fc.config.peers[idx].tlsCertPath,
          .connOpened fc.config.peers[idx].endpoint]) := by
  unfold selectRandomPeer
  split
  · exact .inl ⟨_, rfl⟩
  · split
    · exact .inl ⟨_, rfl⟩
    · exact .inr rfl

theorem createGatewayConnection_shape (fc : FabricClient) (env : Env) (conn : Conn) :
    (∃ e, createGatewayConnection fc env conn =
        (.error e, [.fileRead fc.config.certPath])) ∨
    (∃ e, createGatewayConnection fc env conn =
        (.error e, [.fileRead fc.config.certPath, .fileRead fc.config.keyPath])) ∨
    (∃ gw, createGatewayConnection fc env conn =
        (.ok gw, [.fileRead fc.config.certPath, .fileRead fc.config.keyPath,
                  .gatewayOpened]) ∧
        gw.conn = conn ∧ gw.options = gatewayDefaultOptions) := by
  unfold createGatewayConnection
  split
  · exact .inl ⟨_, rfl⟩
  · split
    · exact .inl ⟨_, rfl⟩
    · split
      · exact .inl ⟨_, rfl⟩
      · split
        · exact .inr (.inl ⟨_, rfl⟩)
        · split
          · exact .inr (.inl ⟨_, rfl⟩)
          · split
            · exact .inr (.inl ⟨_, rfl⟩)
            · split
              · exact .inr (.inl ⟨_, rfl⟩)
              · exact .inr (.inr ⟨_, rfl, rfl, rfl⟩)

/-- C3: for every Invoke and Evaluate call that opens a connection, the
connection is closed before the call returns, on the success path and on
every error path, so replaying the call trace from an empty open-connection
set ends with the empty open-connection set. -/
theorem invoke_evaluate_close_all_connections (fc : FabricClient) (env : Env)
    (idx : Fin fc.config.peers.length) (fcn : String) (args : List String) :
    openConnsAfter (InvokeTransaction fc env idx fcn args).2 [] = [] ∧
    openConnsAfter (EvaluateTransaction fc env idx fcn args).2 [] = [] := by
  rcases selectRandomPeer_shape fc env idx with ⟨e, hsel⟩ | hsel <;>
    simp only [Fin.getElem_fin] at hsel
  · simp [InvokeTransaction, EvaluateTransaction, hsel, openConnsAfter]
  · rcases createGatewayConnection_shape fc env { peer := fc.config.peers[idx.val] } with
      ⟨e, hga⟩ | ⟨e, hga⟩ | ⟨gw, hga, hconn, hopts⟩
    · simp [InvokeTransaction, EvaluateTransaction, hsel, hga, openConnsAfter]
    · simp [InvokeTransaction, EvaluateTransaction, hsel, hga, openConnsAfter]
    · constructor
      · cases hsub : env.submitAsync
            ((gw.GetNetwork fc.config.channelName).GetContract fc.config.chaincodeName)
            fcn args with
        | error e =>
            simp [InvokeTransaction, hsel, hga, hsub, openConnsAfter]
        | ok p =>
            cases hst : env.commitStatus p.2 with
            | error e =>
                simp [InvokeTransaction, hsel, hga, hsub, hst, openConnsAfter]
            | ok st =>
                simp [InvokeTransaction, hsel, hga, hsub, hst, openConnsAfter]
      · cases hev : env.evaluate
            ((gw.GetNetwork fc.config.channelName).GetContract fc.config.chaincodeName)
            fcn args with
        | error e =>
            simp [EvaluateTransaction, hsel, hga, hev, openConnsAfter]
        | ok res =>
            simp [EvaluateTransaction, hsel, hga, hev, openConnsAfter]

/-- C4: constructing the client with zero configured peers always fails:
for every configuration whose peer list is empty, `NewFabricClient` returns
the configuration error and no client. -/
theorem newFabricClient_empty_peers_fails (config : ClientConfig)
    (h : config.peers = []) :
    NewFabricClient config = .error (.goErr "at least one peer must be configured") := by
  simp [NewFabricClient, h]

theorem newFabricClient_empty_peers_fails_witness :
    ({ demoConfig with peers := [] } : ClientConfig).peers = [] ∧
      NewFabricClient { demoConfig with peers := [] } =
        .error (.goErr "at least one peer must be configured") :=
  ⟨rfl, newFabricClient_empty_peers_fails { demoConfig with peers := [] } rfl⟩

/-- C5: for every startup configuration in which the number of comma-split
peer endpoints differs from the number of comma-split TLS certificate paths,
`runServer` terminates fatally at the count check, before any client is
constructed. -/
theorem runServer_count_mismatch_fatal
    (mspID certPath keyPath peerEndpoints tlsCertPaths channelName : String)
    (h : (goSplitComma peerEndpoints).length ≠ (goSplitComma tlsCertPaths).length) :
    runServerStart mspID certPath keyPath peerEndpoints tlsCertPaths channelName =
      .fatal "Number of peer endpoints must match number of TLS certificates" := by
  simp [runServerStart, h]

theorem runServer_count_mismatch_fatal_witness :
    (goSplitComma "peer1:7051,peer2:7051").length ≠ (goSplitComma "tls1.pem").length ∧
      runServerStart "Org1MSP" "cert.pem" "key.pem" "peer1:7051,peer2:7051"
          "tls1.pem" "mychannel" =
        .fatal "Number of peer endpoints must match number of TLS certificates" :=
  ⟨by decide,
   runServer_count_mismatch_fatal "Org1MSP" "cert.pem" "key.pem"
     "peer1:7051,peer2:7051" "tls1.pem" "mychannel" (by decide)⟩

/-- C7: every gateway session is configured with the four phase timeouts
(evaluate, endorsement, submission, commit-wait), each set to 30 seconds. -/
theorem gateway_four_timeouts_thirty_seconds (fc : FabricClient) (env : Env)
    (conn : Conn) (gw : Gateway)
    (h : (createGatewayConnection fc env conn).1 = .ok gw) :
    gw.options.evaluateTimeout = 30 * timeSecond ∧
    gw.options.endorseTimeout = 30 * timeSecond ∧
    gw.options.submitTimeout = 30 * timeSecond ∧
    gw.options.commitStatusTimeout = 30 * timeSecond := by
  rcases createGatewayConnection_shape fc env conn with
    ⟨e, hga⟩ | ⟨e, hga⟩ | ⟨gw2, hga, hconn, hopts⟩ <;> rw [hga] at h
  · exact absurd h (by simp)
  · exact absurd h (by simp)
  · simp only [] at h
    cases h
    rw [hopts]
    exact ⟨rfl, rfl, rfl, rfl⟩

theorem gateway_four_timeouts_thirty_seconds_witness :
    (createGatewayConnection demoClient happyEnv demoConn).1 = .ok demoGateway ∧
      (demoGateway.options.evaluateTimeout = 30 * timeSecond ∧
       demoGateway.options.endorseTimeout = 30 * timeSecond ∧
       demoGateway.options.submitTimeout = 30 * timeSecond ∧
       demoGateway.options.commitStatusTimeout = 30 * timeSecond) :=
  ⟨rfl, gateway_four_timeouts_thirty_seconds demoClient happyEnv demoConn demoGateway rfl⟩

/-- C9: on success, Invoke returns a `TransactionResult` whose payload is the
submit result and whose txId, blockNumber, resultCode (through the Go
`uint32` conversion) and success fields are taken from the commit status,
while Evaluate on success returns only the payload bytes. -/
theorem invoke_evaluate_success_fields (fc : FabricClient) (env : Env)
    (idx : Fin fc.config.peers.length) (fcn : String) (args : List String)
    (conn : Conn) (trSel : List Event) (gw : Gateway) (trGw : List Event)
    (res : Bytes) (txID : String) (st : CommitStatus) (evalRes : Bytes)
    (hsel : selectRandomPeer fc env idx = (.ok conn, trSel))
    (hgw : createGatewayConnection fc env conn = (.ok gw, trGw))
    (hsub : env.submitAsync
        ((gw.GetNetwork fc.config.channelName).GetContract fc.config.chaincodeName)
        fcn args = .ok (res, txID))
    (hst : env.commitStatus txID = .ok st)
    (hev : env.evaluate
        ((gw.GetNetwork fc.config.channelName).GetContract fc.config.chaincodeName)
        fcn args = .ok evalRes) :
    (InvokeTransaction fc env idx fcn args).1 =
      .ok { result := res, txID := txID, success := st.successful,
            blockNumber := st.blockNumber, resultCode := st.code % 4294967296 } ∧
    (EvaluateTransaction fc env idx fcn args).1 = .ok evalRes := by
  constructor
  · simp [InvokeTransaction, hsel, hgw, hsub, hst]
  · simp [EvaluateTransaction, hsel, hgw, hev]

theorem invoke_evaluate_success_fields_witness :
    (InvokeTransaction demoClient happyEnv demoIdx "createAsset" ["a"]).1 =
      .ok { result := [42], txID := "tx1", success := true,
            blockNumber := 7, resultCode := 0 } ∧
    (EvaluateTransaction demoClient happyEnv demoIdx "createAsset" ["a"]).1 =
      .ok [99] :=
  invoke_evaluate_success_fields demoClient happyEnv demoIdx "createAsset" ["a"]
    demoConn _ demoGateway _ [42] "tx1"
    { blockNumber := 7, code := 0, successful := true } [99]
    rfl rfl rfl rfl rfl

/-- C2: when the commit-wait phase of an Invoke call times out, the call
fails with the commit-status error wrapping the timeout, and that error is
distinct from every error the submission/endorsement (network) phase can
produce, so the caller can tell an ambiguous commit outcome from an ordinary
remote failure. -/
theorem invoke_commit_timeout_distinct (fc : FabricClient) (env : Env)
    (idx : Fin fc.config.peers.length) (fcn : String) (args : List String)
    (conn : Conn) (trSel : List Event) (gw : Gateway) (trGw : List Event)
    (res : Bytes) (txID : String) (msg : String)
    (hsel : selectRandomPeer fc env idx = (.ok conn, trSel))
    (hgw : createGatewayConnection fc env conn = (.ok gw, trGw))
    (hsub : env.submitAsync
        ((gw.GetNetwork fc.config.channelName).GetContract fc.config.chaincodeName)
        fcn args = .ok (res, txID))
    (hst : env.commitStatus txID = .error (.timeout msg)) :
    (InvokeTransaction fc env idx fcn args).1 =
      .error (.wrap "failed to get commit status" (.timeout msg)) ∧
    ∀ e, GoError.wrap "failed to get commit status" (.timeout msg) ≠
        GoError.wrap "failed to submit transaction" e := by
  constructor
  · simp [InvokeTransaction, hsel, hgw, hsub, hst]
  · intro e h
    injection h with h1 h2
    exact absurd h1 (by decide)

theorem invoke_commit_timeout_distinct_witness :
    (InvokeTransaction demoClient commitStallEnv demoIdx "createAsset" ["a"]).1 =
      .error (.wrap "failed to get commit status"
        (.timeout "context deadline exceeded")) ∧
    GoError.wrap "failed to get commit status"
        (.timeout "context deadline exceeded") ≠
      GoError.wrap "failed to submit transaction" (.goErr "endorsement failed") :=
  ⟨(invoke_commit_timeout_distinct demoClient commitStallEnv demoIdx "createAsset"
      ["a"] demoConn _ demoGateway _ [42] "tx1" "context deadline exceeded"
      rfl rfl rfl rfl).1,
   (invoke_commit_timeout_distinct demoClient commitStallEnv demoIdx "createAsset"
      ["a"] demoConn _ demoGateway _ [42] "tx1" "context deadline exceeded"
      rfl rfl rfl rfl).2 (.goErr "endorsement failed")⟩

theorem invokeTransaction_trace_counts (fc : FabricClient) (env : Env)
    (idx : Fin fc.config.peers.length) (fcn : String) (args : List String) :
    countSelections (InvokeTransaction fc env idx fcn args).2 = 1 ∧
    countDials (InvokeTransaction fc env idx fcn args).2 ≤ 1 ∧
    countSubmits (InvokeTransaction fc env idx fcn args).2 ≤ 1 ∧
    countCommitQueries (InvokeTransaction fc env idx fcn args).2 ≤ 1 := by
  rcases selectRandomPeer_shape fc env idx with ⟨e, hsel⟩ | hsel <;>
    simp only [Fin.getElem_fin] at hsel
  · simp [InvokeTransaction, hsel, countSelections, countDials, countSubmits,
      countCommitQueries]
  · rcases createGatewayConnection_shape fc env { peer := fc.config.peers[idx.val] } with
      ⟨e, hga⟩ | ⟨e, hga⟩ | ⟨gw, hga, hconn, hopts⟩
    · simp [InvokeTransaction, hsel, hga, countSelections, countDials, countSubmits,
        countCommitQueries]
    · simp [InvokeTransaction, hsel, hga, countSelections, countDials, countSubmits,
        countCommitQueries]
    · cases hsub : env.submitAsync
          ((gw.GetNetwork fc.config.channelName).GetContract fc.config.chaincodeName)
          fcn args with
      | error e =>
          simp [InvokeTransaction, hsel, hga, hsub, countSelections, countDials,
            countSubmits, countCommitQueries]
      | ok p =>
          cases hst : env.commitStatus p.2 with
          | error e =>
              simp [InvokeTransaction, hsel, hga, hsub, hst, countSelections,
                countDials, countSubmits, countCommitQueries]
          | ok st =>
              simp [InvokeTransaction, hsel, hga, hsub, hst, countSelections,
                countDials, countSubmits, countCommitQueries]

theorem evaluateTransaction_trace_counts (fc : FabricClient) (env : Env)
    (idx : Fin fc.config.peers.length) (fcn : String) (args : List String) :
    countSelections (EvaluateTransaction fc env idx fcn args).2 = 1 ∧
    countDials (EvaluateTransaction fc env idx fcn args).2 ≤ 1 ∧
    countEvaluates (EvaluateTransaction fc env idx fcn args).2 ≤ 1 := by
  rcases selectRandomPeer_shape fc env idx with ⟨e, hsel⟩ | hsel <;>
    simp only [Fin.getElem_fin] at hsel
  · simp [EvaluateTransaction, hsel, countSelections, countDials, countEvaluates]
  · rcases createGatewayConnection_shape fc env { peer := fc.config.peers[idx.val] } with
      ⟨e, hga⟩ | ⟨e, hga⟩ | ⟨gw, hga, hconn, hopts⟩
    · simp [EvaluateTransaction, hsel, hga, countSelections, countDials, countEvaluates]
    · simp [EvaluateTransaction, hsel, hga, countSelections, countDials, countEvaluates]
    · cases hev : env.evaluate
          ((gw.GetNetwork fc.config.channelName).GetContract fc.config.chaincodeName)
          fcn args with
      | error e =>
          simp [EvaluateTransaction, hsel, hga, hev, countSelections, countDials,
            countEvaluates]
      | ok res =>
          simp [EvaluateTransaction, hsel, hga, hev, countSelections, countDials,
            countEvaluates]

/-- C8: the transaction client performs no internal retries: every Invoke
call selects exactly one peer, dials at most once, submits at most once and
queries the commit status at most once (likewise Evaluate evaluates at most
once), and a failure in peer selection, gateway construction, submission or
commit-status retrieval is returned immediately as that call's terminal
error. -/
theorem invoke_evaluate_no_internal_retries (fc : FabricClient) (env : Env)
    (idx : Fin fc.config.peers.length) (fcn : String) (args : List String) :
    countSelections (InvokeTransaction fc env idx fcn args).2 = 1 ∧
    countDials (InvokeTransaction fc env idx fcn args).2 ≤ 1 ∧
    countSubmits (InvokeTransaction fc env idx fcn args).2 ≤ 1 ∧
    countCommitQueries (InvokeTransaction fc env idx fcn args).2 ≤ 1 ∧
    countSelections (EvaluateTransaction fc env idx fcn args).2 = 1 ∧
    countEvaluates (EvaluateTransaction fc env idx fcn args).2 ≤ 1 ∧
    (∀ e trSel, selectRandomPeer fc env idx = (.error e, trSel) →
        (InvokeTransaction fc env idx fcn args).1 =
          .error (.wrap "failed to select peer" e)) ∧
    (∀ conn trSel e trGw, selectRandomPeer fc env idx = (.ok conn, trSel) →
        createGatewayConnection fc env conn = (.error e, trGw) →
        (InvokeTransaction fc env idx fcn args).1 =
          .error (.wrap "failed to create gateway connection" e)) ∧
    (∀ conn trSel gw trGw e, selectRandomPeer fc env idx = (.ok conn, trSel) →
        createGatewayConnection fc env conn = (.ok gw, trGw) →
        env.submitAsync
            ((gw.GetNetwork fc.config.channelName).GetContract fc.config.chaincodeName)
            fcn args = .error e →
        (InvokeTransaction fc env idx fcn args).1 =
          .error (.wrap "failed to submit transaction" e)) ∧
    (∀ conn trSel gw trGw res txID e, selectRandomPeer fc env idx = (.ok conn, trSel) →
        createGatewayConnection fc env conn = (.ok gw, trGw) →
        env.submitAsync
            ((gw.GetNetwork fc.config.channelName).GetContract fc.config.chaincodeName)
            fcn args = .ok (res, txID) →
        env.commitStatus txID = .error e →
        (InvokeTransaction fc env idx fcn args).1 =
          .error (.wrap "failed to get commit status" e)) := by
  obtain ⟨hc1, hc2, hc3, hc4⟩ := invokeTransaction_trace_counts fc env idx fcn args
  obtain ⟨he1, he2, he3⟩ := evaluateTransaction_trace_counts fc env idx fcn args
  refine ⟨hc1, hc2, hc3, hc4, he1, he3, ?_, ?_, ?_, ?_⟩
  · intro e trSel hsel
    simp [InvokeTransaction, hsel]
  · intro conn trSel e trGw hsel hga
    simp [InvokeTransaction, hsel, hga]
  · intro conn trSel gw trGw e hsel hga hsub
    simp [InvokeTransaction, hsel, hga, hsub]
  · intro conn trSel gw trGw res txID e hsel hga hsub hst
    simp [InvokeTransaction, hsel, hga, hsub, hst]

theorem invoke_evaluate_no_internal_retries_witness :
    countSelections (InvokeTransaction demoClient submitFailEnv demoIdx "f" []).2 = 1 ∧
    (InvokeTransaction demoClient submitFailEnv demoIdx "f" []).1 =
      .error (.wrap "failed to submit transaction" (.goErr "endorsement failed")) ∧
    countSelections (InvokeTransaction demoClient dialFailEnv demoIdx "f" []).2 = 1 ∧
    (InvokeTransaction demoClient dialFailEnv demoIdx "f" []).1 =
      .error (.wrap "failed to select peer"
        (.wrap "failed to create gRPC connection to peer peer1:7051"
          (.goErr "connection refused"))) :=
  ⟨(invoke_evaluate_no_internal_retries demoClient submitFailEnv demoIdx "f" []).1,
   (invoke_evaluate_no_internal_retries demoClient submitFailEnv demoIdx
      "f" []).2.2.2.2.2.2.2.2.1 demoConn _ demoGateway _ (.goErr "endorsement failed")
      rfl rfl rfl,
   (invoke_evaluate_no_internal_retries demoClient dialFailEnv demoIdx "f" []).1,
   (invoke_evaluate_no_internal_retries demoClient dialFailEnv demoIdx
      "f" []).2.2.2.2.2.2.1
      (.wrap "failed to create gRPC connection to peer peer1:7051"
        (.goErr "connection refused")) _ rfl⟩

theorem parseX509_ok_inv (env : Env) (contents : Bytes) (cert : X509Cert)
    (h : ParseX509Certificate env contents = .ok cert) :
    ∃ block, env.pemDecode contents = some block ∧
      env.parseCertificate block = .ok cert := by
  unfold ParseX509Certificate at h
  by_cases hlen : contents.length = 0
  · simp [hlen] at h
  · simp only [hlen, if_neg, ite_false] at h
    rcases hpd : env.pemDecode contents with _ | block
    · simp [hpd] at h
    · simp only [hpd] at h
      rcases hpc : env.parseCertificate block with e | crt
      · simp [hpc] at h
      · simp only [hpc] at h
        injection h with h1
        exact ⟨block, rfl, by rw [hpc, h1]⟩

theorem createGatewayConnection_ok_inv (fc : FabricClient) (env : Env)
    (conn : Conn) (gw : Gateway) (trGw : List Event)
    (h : createGatewayConnection fc env conn = (.ok gw, trGw)) :
    gw.identity.mspID = fc.config.mspID ∧
    ∃ certPem block, env.readFile fc.config.certPath = .ok certPem ∧
      env.pemDecode certPem = some block ∧
      env.parseCertificate block = .ok gw.identity.cert := by
  unfold createGatewayConnection at h
  rcases hrf : env.readFile fc.config.certPath with e | certPem
  · simp [hrf] at h
  · simp only [hrf] at h
    rcases hpx : ParseX509Certificate env certPem with e | cert
    · simp [hpx] at h
    · simp only [hpx] at h
      rcases hni : env.newX509Identity fc.config.mspID cert with e | u
      · simp [hni] at h
      · simp only [hni] at h
        rcases hrk : env.readFile fc.config.keyPath with e | keyPem
        · simp [hrk] at h
        · simp only [hrk] at h
          rcases hpk : env.privateKeyFromPEM keyPem with e | pk
          · simp [hpk] at h
          · simp only [hpk] at h
            rcases hns : env.newPrivateKeySign pk with e | u2
            · simp [hns] at h
            · simp only [hns] at h
              rcases hcn : env.connect { mspID := fc.config.mspID, cert := cert }
                  { key := pk } conn gatewayDefaultOptions with e | u3
              · simp [hcn] at h
              · simp only [hcn, Prod.mk.injEq] at h
                obtain ⟨h1, h2⟩ := h
                injection h1 with h1
                subst h1
                obtain ⟨block, hb1, hb2⟩ := parseX509_ok_inv env certPem cert hpx
                exact ⟨rfl, certPem, block, rfl, hb1, hb2⟩

/-- C6: on every Invoke and Evaluate operation the client identity is
re-read from disk and re-parsed anew: every call that succeeds has read the
certificate and key files within its own trace, every gateway the call
builds carries an identity parsed from the bytes read from disk during that
same call, and in a sequence of calls each call's trace is a function of
that call's environment alone (the client, holding only its configuration,
caches no identity across calls). -/
theorem identity_reloaded_every_call (fc : FabricClient) (env : Env)
    (idx : Fin fc.config.peers.length) (fcn : String) (args : List String) :
    (∀ r, (InvokeTransaction fc env idx fcn args).1 = .ok r →
        Event.fileRead fc.config.certPath ∈ (InvokeTransaction fc env idx fcn args).2 ∧
        Event.fileRead fc.config.keyPath ∈ (InvokeTransaction fc env idx fcn args).2) ∧
    (∀ r, (EvaluateTransaction fc env idx fcn args).1 = .ok r →
        Event.fileRead fc.config.certPath ∈ (EvaluateTransaction fc env idx fcn args).2 ∧
        Event.fileRead fc.config.keyPath ∈ (EvaluateTransaction fc env idx fcn args).2) ∧
    (∀ conn gw trGw, createGatewayConnection fc env conn = (.ok gw, trGw) →
        gw.identity.mspID = fc.config.mspID ∧
        ∃ certPem block, env.readFile fc.config.certPath = .ok certPem ∧
          env.pemDecode certPem = some block ∧
          env.parseCertificate block = .ok gw.identity.cert) ∧
    (∀ envs : List Env, ∀ k, ∀ hk : k < envs.length,
        (envs.map fun en => (InvokeTransaction fc en idx fcn args).2).get
            ⟨k, by simpa using hk⟩ =
          (InvokeTransaction fc (envs.get ⟨k, hk⟩) idx fcn args).2) := by
  refine ⟨?_, ?_, ?_, ?_⟩
  · intro r hr
    rcases selectRandomPeer_shape fc env idx with ⟨e, hsel⟩ | hsel <;>
      simp only [Fin.getElem_fin] at hsel
    · simp [InvokeTransaction, hsel] at hr
    · rcases createGatewayConnection_shape fc env { peer := fc.config.peers[idx.val] } with
        ⟨e, hga⟩ | ⟨e, hga⟩ | ⟨gw, hga, hconn, hopts⟩
      · simp [InvokeTransaction, hsel, hga] at hr
      · simp [InvokeTransaction, hsel, hga] at hr
      · cases hsub : env.submitAsync
            ((gw.GetNetwork fc.config.channelName).GetContract fc.config.chaincodeName)
            fcn args with
        | error e => simp [InvokeTransaction, hsel, hga, hsub] at hr
        | ok p =>
            cases hst : env.commitStatus p.2 with
            | error e => simp [InvokeTransaction, hsel, hga, hsub, hst] at hr
            | ok st => simp [InvokeTransaction, hsel, hga, hsub, hst]
  · intro r hr
    rcases selectRandomPeer_shape fc env idx with ⟨e, hsel⟩ | hsel <;>
      simp only [Fin.getElem_fin] at hsel
    · simp [EvaluateTransaction, hsel] at hr
    · rcases createGatewayConnection_shape fc env { peer := fc.config.peers[idx.val] } with
        ⟨e, hga⟩ | ⟨e, hga⟩ | ⟨gw, hga, hconn, hopts⟩
      · simp [EvaluateTransaction, hsel, hga] at hr
      · simp [EvaluateTransaction, hsel, hga] at hr
      · cases hev : env.evaluate
            ((gw.GetNetwork fc.config.channelName).GetContract fc.config.chaincodeName)
            fcn args with
        | error e => simp [EvaluateTransaction, hsel, hga, hev] at hr
        | ok res => simp [EvaluateTransaction, hsel, hga, hev]
  · intro conn gw trGw h
    exact createGatewayConnection_ok_inv fc env conn gw trGw h
  · intro envs k hk
    simp

theorem identity_reloaded_every_call_witness :
    (InvokeTransaction demoClient happyEnv demoIdx "f" []).1 =
      .ok { result := [42], txID := "tx1", success := true,
            blockNumber := 7, resultCode := 0 } ∧
    Event.fileRead "cert.pem" ∈ (InvokeTransaction demoClient happyEnv demoIdx "f" []).2 ∧
    Event.fileRead "key.pem" ∈ (InvokeTransaction demoClient happyEnv demoIdx "f" []).2 :=
  ⟨rfl,
   (identity_reloaded_every_call demoClient happyEnv demoIdx "f" []).1
     { result := [42], txID := "tx1", success := true,
       blockNumber := 7, resultCode := 0 } rfl⟩

theorem newFabricClient_ok_inv (config : ClientConfig) (c : FabricClient)
    (h : NewFabricClient config = .ok c) : c.config = config := by
  unfold NewFabricClient at h
  split at h
  · simp at h
  · injection h with h1
    rw [← h1]

theorem invokeHandler_trace_eq (fc : FabricClient) (env : Env)
    (idx : Fin fc.config.peers.length) (req : TransactionRequest) :
    (InvokeHandler fc env idx (some req)).2 =
      (InvokeTransaction fc env idx req.function req.args).2 := by
  rcases h : InvokeTransaction fc env idx req.function req.args with ⟨r, tr⟩
  cases r <;> simp [InvokeHandler, h]

theorem evaluateHandler_trace_eq (fc : FabricClient) (env : Env)
    (idx : Fin fc.config.peers.length) (req : TransactionRequest) :
    (EvaluateHandler fc env idx (some req)).2 =
      (EvaluateTransaction fc env idx req.function req.args).2 := by
  rcases h : EvaluateTransaction fc env idx req.function req.args with ⟨r, tr⟩
  cases r <;> simp [EvaluateHandler, h]

theorem invoke_submit_targets_config (fc : FabricClient) (env : Env)
    (idx : Fin fc.config.peers.length) (fcn : String) (args : List String)
    (ch cc f : String)
    (h : Event.submitCalled ch cc f ∈ (InvokeTransaction fc env idx fcn args).2) :
    ch = fc.config.channelName ∧ cc = fc.config.chaincodeName := by
  rcases selectRandomPeer_shape fc env idx with ⟨e, hsel⟩ | hsel <;>
    simp only [Fin.getElem_fin] at hsel
  · simp [InvokeTransaction, hsel] at h
  · rcases createGatewayConnection_shape fc env { peer := fc.config.peers[idx.val] } with
      ⟨e, hga⟩ | ⟨e, hga⟩ | ⟨gw, hga, hconn, hopts⟩
    · simp [InvokeTransaction, hsel, hga] at h
    · simp [InvokeTransaction, hsel, hga] at h
    · cases hsub : env.submitAsync
          ((gw.GetNetwork fc.config.channelName).GetContract fc.config.chaincodeName)
          fcn args with
      | error e =>
          simp [InvokeTransaction, hsel, hga, hsub] at h
          exact ⟨h.1, h.2.1⟩
      | ok p =>
          cases hst : env.commitStatus p.2 with
          | error e =>
              simp [InvokeTransaction, hsel, hga, hsub, hst] at h
              exact ⟨h.1, h.2.1⟩
          | ok st =>
              simp [InvokeTransaction, hsel, hga, hsub, hst] at h
              exact ⟨h.1, h.2.1⟩

theorem evaluate_targets_config (fc : FabricClient) (env : Env)
    (idx : Fin fc.config.peers.length) (fcn : String) (args : List String)
    (ch cc f : String)
    (h : Event.evaluateCalled ch cc f ∈ (EvaluateTransaction fc env idx fcn args).2) :
    ch = fc.config.channelName ∧ cc = fc.config.chaincodeName := by
  rcases selectRandomPeer_shape fc env idx with ⟨e, hsel⟩ | hsel <;>
    simp only [Fin.getElem_fin] at hsel
  · simp [EvaluateTransaction, hsel] at h
  · rcases createGatewayConnection_shape fc env { peer := fc.config.peers[idx.val] } with
      ⟨e, hga⟩ | ⟨e, hga⟩ | ⟨gw, hga, hconn, hopts⟩
    · simp [EvaluateTransaction, hsel, hga] at h
    · simp [EvaluateTransaction, hsel, hga] at h
    · cases hev : env.evaluate
          ((gw.GetNetwork fc.config.channelName).GetContract fc.config.chaincodeName)
          fcn args with
      | error e =>
          simp [EvaluateTransaction, hsel, hga, hev] at h
          exact ⟨h.1, h.2.1⟩
      | ok res =>
          simp [EvaluateTransaction, hsel, hga, hev] at h
          exact ⟨h.1, h.2.1⟩

/-- C10: the chaincode_name field of the HTTP request body is ignored: the
handlers' behaviour depends only on the function name and arguments, every
submit or evaluate the handlers trigger targets the chaincode name stored in
the client configuration at construction, and every client a `runServer`
startup constructs has the empty chaincode name (the startup literal never
populates it). -/
theorem handlers_ignore_request_chaincode (fc : FabricClient) (env : Env)
    (idx : Fin fc.config.peers.length) (req : TransactionRequest) (other : String) :
    InvokeHandler fc env idx (some req) =
      InvokeHandler fc env idx (some { req with chaincodeName := other }) ∧
    EvaluateHandler fc env idx (some req) =
      EvaluateHandler fc env idx (some { req with chaincodeName := other }) ∧
    (∀ ch cc f, Event.submitCalled ch cc f ∈ (InvokeHandler fc env idx (some req)).2 →
        cc = fc.config.chaincodeName) ∧
    (∀ ch cc f, Event.evaluateCalled ch cc f ∈ (EvaluateHandler fc env idx (some req)).2 →
        cc = fc.config.chaincodeName) ∧
    (∀ mspID certPath keyPath peerEndpoints tlsCertPaths channelName client,
        runServerStart mspID certPath keyPath peerEndpoints tlsCertPaths channelName =
          .started client → client.config.chaincodeName = "") := by
  refine ⟨rfl, rfl, ?_, ?_, ?_⟩
  · intro ch cc f h
    rw [invokeHandler_trace_eq] at h
    exact (invoke_submit_targets_config fc env idx req.function req.args ch cc f h).2
  · intro ch cc f h
    rw [evaluateHandler_trace_eq] at h
    exact (evaluate_targets_config fc env idx req.function req.args ch cc f h).2
  · intro mspID certPath keyPath peerEndpoints tlsCertPaths channelName client h
    unfold runServerStart at h
    split at h
    · simp at h
    · rcases hnc : NewFabricClient (runServerClientConfig mspID certPath keyPath
          peerEndpoints tlsCertPaths channelName) with e | c
      · simp [hnc] at h
      · simp only [hnc] at h
        injection h with h1
        rw [← h1, newFabricClient_ok_inv _ _ hnc]
        rfl

theorem handlers_ignore_request_chaincode_witness :
    InvokeHandler demoClient happyEnv demoIdx (some demoRequest) =
      InvokeHandler demoClient happyEnv demoIdx
        (some { demoRequest with chaincodeName := "othercc" }) ∧
    EvaluateHandler demoClient happyEnv demoIdx (some demoRequest) =
      EvaluateHandler demoClient happyEnv demoIdx
        (some { demoRequest with chaincodeName := "othercc" }) :=
  ⟨(handlers_ignore_request_chaincode demoClient happyEnv demoIdx demoRequest
      "othercc").1,
   (handlers_ignore_request_chaincode demoClient happyEnv demoIdx demoRequest
      "othercc").2.1⟩

theorem and_two_pow_sub_one (v t : Nat) : v &&& (2 ^ t - 1) = v % 2 ^ t := by
  apply Nat.eq_of_testBit_eq
  intro i
  rw [Nat.testBit_land, Nat.testBit_two_pow_sub_one, Nat.testBit_mod_two_pow,
    Bool.and_comm]

theorem pow_two_of_and_pred_eq_zero (n : Nat) (hn : 0 < n)
    (h : n &&& (n - 1) = 0) : ∃ t, n = 2 ^ t := by
  refine ⟨Nat.log 2 n, ?_⟩
  by_contra hne
  have h1 : 2 ^ Nat.log 2 n ≤ n := Nat.pow_log_le_self 2 hn.ne'
  have h2 : n < 2 ^ (Nat.log 2 n + 1) := Nat.lt_pow_succ_log_self (by norm_num) n
  have h2e : 2 ^ (Nat.log 2 n + 1) = 2 ^ Nat.log 2 n * 2 := pow_succ 2 (Nat.log 2 n)
  have h1s : 2 ^ Nat.log 2 n < n := lt_of_le_of_ne h1 (fun he => hne he.symm)
  have tb1 : n.testBit (Nat.log 2 n) = true := by
    rw [Nat.testBit_to_div_mod]
    have hd : n / 2 ^ Nat.log 2 n = 1 := Nat.div_eq_of_lt_le (by omega) (by omega)
    simp [hd]
  have tb2 : (n - 1).testBit (Nat.log 2 n) = true := by
    rw [Nat.testBit_to_div_mod]
    have hd : (n - 1) / 2 ^ Nat.log 2 n = 1 := Nat.div_eq_of_lt_le (by omega) (by omega)
    simp [hd]
  have tb3 : (n &&& (n - 1)).testBit (Nat.log 2 n) = true := by
    rw [Nat.testBit_land, tb1, tb2]
    rfl
  rw [h, Nat.zero_testBit] at tb3
  exact Bool.false_ne_true tb3

theorem card_range_mul_filter_mod (n k i : Nat) (hn : 0 < n) (hi : i < n) :
    ((Finset.range (k * n)).filter (fun v => v % n = i)).card = k := by
  induction k with
  | zero => simp
  | succ k ih =>
    have hsplit : Finset.range ((k + 1) * n) =
        Finset.range (k * n) ∪ Finset.Ico (k * n) ((k + 1) * n) := by
      rw [Finset.range_eq_Ico,
        Finset.Ico_union_Ico_eq_Ico (Nat.zero_le _)
          (Nat.mul_le_mul_right n (Nat.le_succ k))]
    have hone : (Finset.Ico (k * n) ((k + 1) * n)).filter (fun v => v % n = i) =
        {k * n + i} := by
      ext v
      simp only [Finset.mem_filter, Finset.mem_Ico, Finset.mem_singleton]
      constructor
      · rintro ⟨⟨hlo, hhi⟩, hmod⟩
        have hdiv : v / n = k := Nat.div_eq_of_lt_le hlo hhi
        have hdm := Nat.div_add_mod v n
        rw [hdiv, hmod] at hdm
        rw [Nat.mul_comm k n]
        omega
      · rintro rfl
        have hsm : (k + 1) * n = k * n + n := by
          rw [Nat.succ_mul]
        refine ⟨⟨Nat.le_add_right _ _, by omega⟩, ?_⟩
        rw [Nat.mul_comm k n, Nat.mul_add_mod]
        exact Nat.mod_eq_of_lt hi
    have hdisj : Disjoint
        ((Finset.range (k * n)).filter (fun v => v % n = i))
        ((Finset.Ico (k * n) ((k + 1) * n)).filter (fun v => v % n = i)) := by
      apply Finset.disjoint_filter_filter
      rw [Finset.range_eq_Ico]
      exact Finset.Ico_disjoint_Ico_consecutive 0 (k * n) ((k + 1) * n)
    rw [hsplit, Finset.filter_union, Finset.card_union_of_disjoint hdisj, ih, hone]
    rfl

theorem intnDrawCount_eq (w n : Nat) (hn : 0 < n) (hw : n ≤ 2 ^ w)
    (i : Nat) (hi : i < n) : intnDrawCount w n i = 2 ^ w / n := by
  by_cases hpow : n &&& (n - 1) = 0
  · obtain ⟨t, rfl⟩ := pow_two_of_and_pred_eq_zero n hn hpow
    have hstep : ∀ v, goIntnStep w (2 ^ t) v = some (v % 2 ^ t) := by
      intro v
      unfold goIntnStep
      rw [if_pos hpow, and_two_pow_sub_one]
    unfold intnDrawCount
    simp only [hstep, Option.some.injEq]
    have ht : t ≤ w := (Nat.pow_le_pow_iff_right (by norm_num)).1 hw
    have hdvd : 2 ^ t ∣ 2 ^ w := pow_dvd_pow 2 ht
    have h2 : 2 ^ w / 2 ^ t * 2 ^ t = 2 ^ w := Nat.div_mul_cancel hdvd
    conv_lhs => rw [← h2]
    exact card_range_mul_filter_mod (2 ^ t) (2 ^ w / 2 ^ t) i hn hi
  · have hstep : ∀ v, goIntnStep w n v =
        if v ≤ 2 ^ w - 1 - 2 ^ w % n then some (v % n) else none := by
      intro v
      unfold goIntnStep
      rw [if_neg hpow]
    have hmodlt : 2 ^ w % n < n := Nat.mod_lt _ hn
    have hfil : (Finset.range (2 ^ w)).filter (fun v => goIntnStep w n v = some i) =
        (Finset.range (2 ^ w - 2 ^ w % n)).filter (fun v => v % n = i) := by
      ext v
      simp only [Finset.mem_filter, Finset.mem_range, hstep]
      constructor
      · rintro ⟨hv, hif⟩
        by_cases hle : v ≤ 2 ^ w - 1 - 2 ^ w % n
        · rw [if_pos hle] at hif
          injection hif with hif
          exact ⟨by omega, hif⟩
        · rw [if_neg hle] at hif
          exact absurd hif (by simp)
      · rintro ⟨hv, hmod⟩
        refine ⟨by omega, ?_⟩
        rw [if_pos (by omega), hmod]
    unfold intnDrawCount
    rw [hfil]
    have hq : 2 ^ w - 2 ^ w % n = 2 ^ w / n * n := by
      apply Nat.sub_eq_of_eq_add
      rw [Nat.mul_comm]
      exact (Nat.div_add_mod (2 ^ w) n).symm
    rw [hq]
    exact card_range_mul_filter_mod n (2 ^ w / n) i hn hi

theorem goIntnStep_lt (w n v r : Nat) (hn : 0 < n)
    (h : goIntnStep w n v = some r) : r < n := by
  unfold goIntnStep at h
  split at h
  · injection h with h1
    have hand : v &&& (n - 1) ≤ n - 1 := Nat.and_le_right
    omega
  · split at h
    · injection h with h1
      have hm := Nat.mod_lt v hn
      omega
    · exact absurd h (by simp)

theorem goIntn_lt (w n : Nat) (hn : 0 < n) :
    ∀ draws r, goIntn w n draws = some r → r < n := by
  intro draws
  induction draws with
  | nil => intro r h; exact absurd h (by simp [goIntn])
  | cons v vs ih =>
    intro r h
    unfold goIntn at h
    rcases hs : goIntnStep w n v with _ | r2
    · simp only [hs] at h
      exact ih r h
    · simp only [hs] at h
      injection h with h1
      exact h1 ▸ goIntnStep_lt w n v r2 hn hs

/-- C1: for every client whose configured peer list is non-empty, each call
to `selectRandomPeer` chooses a peer index via `rand.Intn` over all
configured peers: every returned index is in range, the number of raw
generator draws a single acceptance step maps to each index is the same for
every index (uniformity over the full peer list), a rejected draw is simply
discarded with the selection continuing identically on the next draw, and in
a sequence of calls each call's selection is a function of that call's own
draws alone — no round-robin, no affinity, no state carried between
selections. -/
theorem selectRandomPeer_uniform_stateless (fc : FabricClient) (w : Nat)
    (hn : 0 < fc.config.peers.length) (hw : fc.config.peers.length ≤ 2 ^ w)
    (i j : Nat) (hi : i < fc.config.peers.length)
    (hj : j < fc.config.peers.length) :
    (∀ draws r, selectPeerIndex fc w draws = some r → r < fc.config.peers.length) ∧
    intnDrawCount w fc.config.peers.length i =
      intnDrawCount w fc.config.peers.length j ∧
    (∀ v draws, goIntnStep w fc.config.peers.length v = none →
        selectPeerIndex fc w (v :: draws) = selectPeerIndex fc w draws) ∧
    (∀ drawss : List (List Nat), ∀ k, ∀ hk : k < drawss.length,
        (drawss.map (selectPeerIndex fc w)).get ⟨k, by simpa using hk⟩ =
          selectPeerIndex fc w (drawss.get ⟨k, hk⟩)) := by
  refine ⟨?_, ?_, ?_, ?_⟩
  · intro draws r h
    exact goIntn_lt w _ hn draws r h
  · rw [intnDrawCount_eq w _ hn hw i hi, intnDrawCount_eq w _ hn hw j hj]
  · intro v draws hnone
    simp only [selectPeerIndex, goIntn, hnone]
  · intro drawss k hk
    simp

theorem selectRandomPeer_uniform_stateless_witness :
    0 < demoClient.config.peers.length ∧
    demoClient.config.peers.length ≤ 2 ^ 2 ∧
    intnDrawCount 2 demoClient.config.peers.length 0 =
      intnDrawCount 2 demoClient.config.peers.length 1 ∧
    selectPeerIndex demoClient 2 [3, 1] = some 1 :=
  ⟨by decide, by decide,
   (selectRandomPeer_uniform_stateless demoClient 2 (by decide) (by decide) 0 1
      (by decide) (by decide)).2.1,
   by decide⟩

end PluginHlfApi
